import Mathlib

/-!
Verification development for the Authorization-API service (src/app.py,
src/models.py): a credential-issuance and verification service with four
lifecycle operations (Login, Token-Create, Verify, Refresh, Logout).

The orchestrator code (endpoints and helpers of `app.py`) is embedded
faithfully below.  The Claims Codec (the external `jose` JWT library) and
the bcrypt password hash are not part of the repository's sources, so they
are modelled from the spec (sections 4.1 and 4.2); the modelling is noted
on each such definition.  Tokens are modelled as an inductive whose
`signed` constructor stands for the deterministic signed string encoding
of a payload: equality of `Token` values corresponds to byte-for-byte
equality of token strings (the encoding is deterministic and injective).
Timestamps are naturals (seconds); HTTP responses are `Except` values
carrying a status code and a detail string, paired with the list of store
writes the handler attempted.  The refresh handler is the exception: its
`except` clause is broken in the source (see `RefreshFailure`), so its
failures escape as unhandled exceptions rather than typed rejections.
-/

namespace AuthAPI

/-- The decoded JWT payload as read by `app.py`: the three claims the code
looks up (`payload.get("sub")`, `payload.get("exp")`, `payload.get("ngy")`),
each possibly absent. -/
structure Payload where
  sub : Option String
  ngy : Option String
  exp : Option Nat
deriving DecidableEq, Repr

/-- A token string.  `signed p secret alg` is the deterministic signed
encoding of payload `p` under the given secret and algorithm; `garbage`
is any string that is not such an encoding. -/
inductive Token where
  | signed (payload : Payload) (secret : Nat) (alg : String)
  | garbage (raw : String)
deriving DecidableEq, Repr

/-- Typed decode failures of the Claims Codec (spec section 4.2). -/
inductive DecodeError where
  | invalidSignature
  | malformed
deriving DecidableEq, Repr

/-- Modelled from the spec: the Claims Codec's `encode` (section 4.2) is the
external jose library's `jwt.encode`, absent from src/ — a deterministic
signed encoding of the claims. -/
def encode (p : Payload) (secret : Nat) (alg : String) : Token :=
  .signed p secret alg

/-- Modelled from the spec: the Claims Codec's `decode` (section 4.2) is the
external jose library's `jwt.decode`, absent from src/ — it fails with
`InvalidSignature` when the signature does not verify, `Malformed` when the
structure cannot be parsed (including an algorithm outside the allowed
list), and succeeds otherwise regardless of expiry (expiry is checked by
the caller, not the codec). -/
def decode (t : Token) (secret : Nat) (algs : List String) :
    Except DecodeError Payload :=
  match t with
  | .signed p s a =>
      if a ∈ algs then
        if s = secret then .ok p else .error .invalidSignature
      else .error .malformed
  | .garbage _ => .error .malformed

/-- app.py:25 `ALGORITHM = "HS256"`. -/
def ALGORITHM : String := "HS256"

/-- app.py:26 `ACCESS_TOKEN_EXPIRE_DAYS = 7`. -/
def ACCESS_TOKEN_EXPIRE_DAYS : Nat := 7

/-- `timedelta(days = n)` as seconds. -/
def days (n : Nat) : Nat := n * 86400

/-- Python truthiness of an optional string (`if not x`): falsy when absent
or empty. -/
def truthyStr : Option String → Bool
  | none => false
  | some s => s != ""

/-- Python truthiness of an optional numeric timestamp (`if not x`): falsy
when absent or zero. -/
def truthyNat : Option Nat → Bool
  | none => false
  | some n => n != 0

/-- The request-independent environment: the process-wide signing secret
(app.py:24), the current time read by `datetime.now()`, whether
`jwt.encode` raises inside `create_access_token` (its `except` branch), and
the bcrypt verifier (modelled from the spec, section 4.1: an external
boolean check of plaintext against hash). -/
structure Env where
  secret : Nat
  now : Nat
  encodeFails : Bool
  pwVerify : String → String → Bool

/-- The user record returned by the external store via `get_user`: the
fields `app.py` reads (`user["password"]`, `user["login"]`,
`user["agency_id"]`, `user.get("jwt_token")`, the last possibly absent). -/
structure UserRecord where
  password : String
  login : String
  agency_id : String
  jwt_token : Option Token
deriving DecidableEq, Repr

/-- The external store's responses, one request's worth: `getUser u` is
what `get_user u` yields after folding every transport/JSON/absent-data
failure into `none` (app.py:86-115); `updateOk`/`deleteOk` say whether the
store accepts a `/token/update` or `/token/delete` call. -/
structure Store where
  getUser : String → Option UserRecord
  updateOk : String → Token → Bool
  deleteOk : String → Token → Bool

/-- An HTTPException as raised by the endpoints: status code and detail. -/
structure HTTPException where
  status : Nat
  detail : String
deriving DecidableEq, Repr

/-- A write the handler attempted against the external store. -/
inductive StoreWrite where
  | update (login : String) (jwt_token : Token)
  | delete (login : String) (jwt_token : Token)
deriving DecidableEq, Repr

/-- models.py `User`. -/
structure User where
  username : String
  password : String
deriving DecidableEq, Repr

/-- models.py `TokenVerify`. -/
structure TokenVerify where
  username : String
  token : Token
deriving DecidableEq, Repr

/-- models.py `TokenRefresh`. -/
structure TokenRefresh where
  username : String
  refresh_token : Token
deriving DecidableEq, Repr

/-- models.py `Token` (the success body of Login/Token-Create/Refresh). -/
structure TokenResponse where
  access_token : Token
  token_type : String
deriving DecidableEq, Repr

/-- The success body of Verify (app.py:231). -/
structure VerifyResponse where
  valid : Bool
  user_id : String
  agency_id : String
deriving DecidableEq, Repr

/-- The success body of Logout (app.py:300). -/
structure LogoutResponse where
  message : String
deriving DecidableEq, Repr

/-- app.py:34 `verify_password`: delegates to the bcrypt context
(modelled from the spec, section 4.1, via `Env.pwVerify`). -/
def verify_password (env : Env) (plain_password hashed_password : String) : Bool :=
  env.pwVerify plain_password hashed_password

/-- app.py:42 `create_access_token`: copy the claims dict, set
`exp = now + expires_delta` (default 7 days), encode; on any exception the
function returns `False` (modelled by `none` when `env.encodeFails`). -/
def create_access_token (env : Env) (data : Payload)
    (expires_delta : Option Nat) : Option Token :=
  if env.encodeFails then none
  else
    let expire :=
      match expires_delta with
      | some d => env.now + d
      | none => env.now + days ACCESS_TOKEN_EXPIRE_DAYS
    some (encode { data with exp := some expire } env.secret ALGORITHM)

/-- app.py:58 `update_token_in_DB`: POST `/token/update`; `true` iff the
store reports success (every transport failure yields `False` in the
source, folded into the store's answer here). -/
def update_token_in_DB (store : Store) (username : String)
    (access_token : Token) : Bool :=
  store.updateOk username access_token

/-- app.py:86 `get_user`: GET `/data/{username}`; every failure mode
(non-ok status, network error, bad JSON, absent or falsy `data`) yields
`None`, folded into the store's answer here. -/
def get_user (store : Store) (username : String) : Option UserRecord :=
  store.getUser username

/-- app.py:119 POST `/login`: fetch user, 401 if absent, 401 on password
mismatch, mint a token with `sub = user["login"]`, `ngy =
user["agency_id"]` and 7-day expiry, 500 if minting fails, attempt the
store write under the request's username, 500 if it fails, else return the
bearer token.  The second component lists the store writes attempted. -/
def login (env : Env) (store : Store) (user_data : User) :
    Except HTTPException TokenResponse × List StoreWrite :=
  match get_user store user_data.username with
  | none => (.error ⟨401, "User not found"⟩, [])
  | some user =>
    if !verify_password env user_data.password user.password then
      (.error ⟨401, "Incorrect password"⟩, [])
    else
      match create_access_token env ⟨some user.login, some user.agency_id, none⟩
          (some (days ACCESS_TOKEN_EXPIRE_DAYS)) with
      | none => (.error ⟨500, "Failed to create access token"⟩, [])
      | some access_token =>
        if !update_token_in_DB store user_data.username access_token then
          (.error ⟨500, "Failed to update token in database"⟩,
            [.update user_data.username access_token])
        else
          (.ok ⟨access_token, "bearer"⟩, [.update user_data.username access_token])

/-- app.py:155 POST `/token/create` (`login_for_access_token`): same
credential check collapsed into one 401, same minting, but 400 (not 500)
when minting or the store write fails. -/
def login_for_access_token (env : Env) (store : Store) (form_data : User) :
    Except HTTPException TokenResponse × List StoreWrite :=
  match get_user store form_data.username with
  | none => (.error ⟨401, "Incorrect username or password"⟩, [])
  | some user =>
    if !verify_password env form_data.password user.password then
      (.error ⟨401, "Incorrect username or password"⟩, [])
    else
      match create_access_token env ⟨some user.login, some user.agency_id, none⟩
          (some (days ACCESS_TOKEN_EXPIRE_DAYS)) with
      | none => (.error ⟨400, "Token creation error"⟩, [])
      | some access_token =>
        if update_token_in_DB store form_data.username access_token then
          (.ok ⟨access_token, "bearer"⟩, [.update form_data.username access_token])
        else
          (.error ⟨400, "Token update in DB error"⟩,
            [.update form_data.username access_token])

/-- app.py:184 POST `/token/verify`: decode (any codec failure becomes 400
"Invalid token format"), then in order — 400 if `sub` falsy, 400 if `exp`
falsy, 401 if `now >= exp`, 400 if `ngy` falsy (with the same detail
string as the `exp` check, as in the source), 404 if the store has no user
record, 401 if the stored token is not byte-identical to the presented
one, else `{valid: true, user_id: sub, agency_id: ngy}`.  Side-effect
free: no store writes. -/
def verify_token (env : Env) (store : Store) (token_data : TokenVerify) :
    Except HTTPException VerifyResponse :=
  match decode token_data.token env.secret [ALGORITHM] with
  | .error _ => .error ⟨400, "Invalid token format"⟩
  | .ok payload =>
    if !truthyStr payload.sub then
      .error ⟨400, "Invalid token: missing username"⟩
    else if !truthyNat payload.exp then
      .error ⟨400, "Invalid token: missing expiration"⟩
    else if payload.exp.getD 0 ≤ env.now then
      .error ⟨401, "Token has expired"⟩
    else if !truthyStr payload.ngy then
      .error ⟨400, "Invalid token: missing expiration"⟩
    else
      match get_user store token_data.username with
      | none => .error ⟨404, "User not found"⟩
      | some user =>
        if user.jwt_token ≠ some token_data.token then
          .error ⟨401, "Invalid token: does not match stored token"⟩
        else
          .ok ⟨true, payload.sub.getD "", payload.ngy.getD ""⟩

/-- An exception that was propagating inside the refresh handler's try
block when its `except` clause was evaluated: either the codec's JWTError
from `jwt.decode`, or one of the handler's own HTTPExceptions
(app.py:247, 255, 262). -/
inductive DisplacedExc where
  | jwtError (e : DecodeError)
  | http (e : HTTPException)
deriving DecidableEq, Repr

/-- What the refresh request boundary sees on failure.  app.py:265 reads
`except jwt.PyJWTError:`, but `jwt` there is python-jose's jwt module
(imported at app.py:12), whose documented API has no `PyJWTError`
attribute — that name is the PyJWT package's base exception; the same
file's verify handler uses jose's correct `except JWTError` (app.py:233).
Python evaluates an `except` clause's class expression only when an
exception propagates to it, so every exception raised inside the try
block triggers an AttributeError there, displacing the original
exception; the AttributeError leaves the handler unhandled and the
framework surfaces it as a bare 500 Internal Server Error carrying none
of the handler's status codes or detail strings.  The displaced exception
is recorded for bookkeeping only — nothing of it reaches the client. -/
inductive RefreshFailure where
  | unhandledAttributeError (displaced : DisplacedExc)
deriving DecidableEq, Repr

/-- app.py:239 POST `/token/refresh`: decode the refresh token, reject
with 400 "Invalid refresh token" if it fails or if `sub` is `None` (an
`is None` check, not truthiness), mint a token whose claims dict is
`{"sub": username}` only — no `ngy` — with 7-day expiry, 400 if minting
fails, attempt the store write under the request's username, 400 if it
fails, else return the bearer token.  However the handler's `except`
clause is broken (see `RefreshFailure`), so every failure path — the
codec's JWTError as well as the handler's own HTTPException raises —
escapes as an unhandled AttributeError instead of reaching the boundary
as a typed rejection; only the success path returns normally. -/
def refresh_token (env : Env) (store : Store) (token_data : TokenRefresh) :
    Except RefreshFailure TokenResponse × List StoreWrite :=
  match decode token_data.refresh_token env.secret [ALGORITHM] with
  | .error e => (.error (.unhandledAttributeError (.jwtError e)), [])
  | .ok payload =>
    match payload.sub with
    | none =>
      (.error (.unhandledAttributeError
        (.http ⟨400, "Invalid refresh token"⟩)), [])
    | some username =>
      match create_access_token env ⟨some username, none, none⟩
          (some (days ACCESS_TOKEN_EXPIRE_DAYS)) with
      | none =>
        (.error (.unhandledAttributeError
          (.http ⟨400, "Token update error"⟩)), [])
      | some access_token =>
        if update_token_in_DB store token_data.username access_token then
          (.ok ⟨access_token, "bearer"⟩,
            [.update token_data.username access_token])
        else
          (.error (.unhandledAttributeError
              (.http ⟨400, "Token update in DB error"⟩)),
            [.update token_data.username access_token])

/-- app.py:269 POST `/logout`: call `verify_token`; a raised HTTPException
from it propagates unchanged (re-raised by `except HTTPException: raise`);
when it returns, the `if not valid` branch gives 401 "Invalid token"
(never reached in practice since Verify only returns `valid: True`); then
attempt DELETE `/token/delete`, 500 if the store reports failure, else the
success message. -/
def logout (env : Env) (store : Store) (token_data : TokenVerify) :
    Except HTTPException LogoutResponse × List StoreWrite :=
  match verify_token env store token_data with
  | .error e => (.error e, [])
  | .ok valid_response =>
    if !valid_response.valid then
      (.error ⟨401, "Invalid token"⟩, [])
    else if !store.deleteOk token_data.username token_data.token then
      (.error ⟨500, "Failed to delete token from database"⟩,
        [.delete token_data.username token_data.token])
    else
      (.ok ⟨"Successfully logged out"⟩,
        [.delete token_data.username token_data.token])

/-! ## Concrete fixtures for witness instances -/

/-- A concrete environment: secret 7, current time 1000, encoding works,
passwords verify by plain equality. -/
def envW : Env :=
  { secret := 7, now := 1000, encodeFails := false,
    pwVerify := fun p h => p == h }

/-- A store with no user records that accepts every write. -/
def storeEmpty : Store :=
  { getUser := fun _ => none, updateOk := fun _ _ => true,
    deleteOk := fun _ _ => true }

/-- A well-signed but expired token presented for user alice. -/
def tdC1 : TokenVerify :=
  ⟨"alice", encode ⟨some "alice", some "agency1", some 50⟩ 7 ALGORITHM⟩

/-! ## Claims -/

/-- C1: for every token that is well-signed (encoded with the service's
secret and algorithm) carrying a Claims value — non-empty subject,
non-zero expiry — whose expiry is in the past, Verify rejects with 401
"Token has expired" and never returns valid, while the codec's decode
succeeds on that token (the expiry check is the caller's, not the
decoder's). -/
theorem C1_expired_token_rejected (env : Env) (store : Store)
    (td : TokenVerify) (p : Payload) (s : String) (e : Nat)
    (htok : td.token = encode p env.secret ALGORITHM)
    (hsub : p.sub = some s) (hs : s ≠ "")
    (hexp : p.exp = some e) (he : e ≠ 0)
    (hpast : e ≤ env.now) :
    verify_token env store td = .error ⟨401, "Token has expired"⟩ ∧
    decode td.token env.secret [ALGORITHM] = .ok p := by
  have hdec : decode td.token env.secret [ALGORITHM] = .ok p := by
    rw [htok]; simp [decode, encode]
  refine ⟨?_, hdec⟩
  simp [verify_token, hdec, truthyStr, truthyNat, hsub, hexp, hs, he, hpast]

/-- Witness for C1 at a concrete expired token. -/
theorem C1_expired_token_rejected_witness :
    verify_token envW storeEmpty tdC1 = .error ⟨401, "Token has expired"⟩ ∧
    decode tdC1.token envW.secret [ALGORITHM]
      = .ok ⟨some "alice", some "agency1", some 50⟩ :=
  C1_expired_token_rejected envW storeEmpty tdC1
    ⟨some "alice", some "agency1", some 50⟩ "alice" 50
    rfl rfl (by decide) rfl (by decide) (by decide)

/-- The token currently active for user alice in the witness store. -/
def aliceTok : Token :=
  encode ⟨some "alice", some "agency1", some 2000⟩ 7 ALGORITHM

/-- The witness store's record for user alice. -/
def aliceRec : UserRecord :=
  { password := "pw", login := "alice", agency_id := "agency1",
    jwt_token := some aliceTok }

/-- A store holding exactly the record for alice, accepting every write. -/
def storeAlice : Store :=
  { getUser := fun u => if u == "alice" then some aliceRec else none,
    updateOk := fun _ _ => true, deleteOk := fun _ _ => true }

/-- Alice presenting her active token. -/
def tdC2 : TokenVerify := ⟨"alice", aliceTok⟩

/-- C2: for every verify request whose token decodes, Verify performs the
checks in the stated order with the stated rejections — 400 if the subject
claim is falsy, 400 if the expiry claim is falsy, 401 if now is at or past
the expiry, 400 if the agency claim is falsy, 404 if the store has no
record for the request's username, 401 if the stored token differs from
the presented one — and when every check passes it returns valid with
user_id the token's subject and the token's agency_id. -/
theorem C2_verify_check_order (env : Env) (store : Store) (td : TokenVerify)
    (p : Payload)
    (hdec : decode td.token env.secret [ALGORITHM] = .ok p) :
    (truthyStr p.sub = false →
      verify_token env store td
        = .error ⟨400, "Invalid token: missing username"⟩) ∧
    (truthyStr p.sub = true → truthyNat p.exp = false →
      verify_token env store td
        = .error ⟨400, "Invalid token: missing expiration"⟩) ∧
    (truthyStr p.sub = true → truthyNat p.exp = true →
      p.exp.getD 0 ≤ env.now →
      verify_token env store td = .error ⟨401, "Token has expired"⟩) ∧
    (truthyStr p.sub = true → truthyNat p.exp = true →
      env.now < p.exp.getD 0 → truthyStr p.ngy = false →
      verify_token env store td
        = .error ⟨400, "Invalid token: missing expiration"⟩) ∧
    (truthyStr p.sub = true → truthyNat p.exp = true →
      env.now < p.exp.getD 0 → truthyStr p.ngy = true →
      store.getUser td.username = none →
      verify_token env store td = .error ⟨404, "User not found"⟩) ∧
    (∀ user : UserRecord, truthyStr p.sub = true → truthyNat p.exp = true →
      env.now < p.exp.getD 0 → truthyStr p.ngy = true →
      store.getUser td.username = some user →
      user.jwt_token ≠ some td.token →
      verify_token env store td
        = .error ⟨401, "Invalid token: does not match stored token"⟩) ∧
    (∀ user : UserRecord, truthyStr p.sub = true → truthyNat p.exp = true →
      env.now < p.exp.getD 0 → truthyStr p.ngy = true →
      store.getUser td.username = some user →
      user.jwt_token = some td.token →
      verify_token env store td
        = .ok ⟨true, p.sub.getD "", p.ngy.getD ""⟩) := by
  refine ⟨?_, ?_, ?_, ?_, ?_, ?_, ?_⟩
  · intro h1
    simp [verify_token, hdec, h1]
  · intro h1 h2
    simp [verify_token, hdec, h1, h2]
  · intro h1 h2 h3
    simp [verify_token, hdec, h1, h2, h3]
  · intro h1 h2 h3 h4
    simp [verify_token, hdec, h1, h2, h4, Nat.not_le.mpr h3]
  · intro h1 h2 h3 h4 h5
    simp [verify_token, get_user, hdec, h1, h2, h4, h5, Nat.not_le.mpr h3]
  · intro user h1 h2 h3 h4 h5 h6
    simp [verify_token, get_user, hdec, h1, h2, h4, h5, h6, Nat.not_le.mpr h3]
  · intro user h1 h2 h3 h4 h5 h6
    simp [verify_token, get_user, hdec, h1, h2, h4, h5, h6, Nat.not_le.mpr h3]

/-- Witness for C2: the all-checks-pass branch at a concrete store. -/
theorem C2_verify_check_order_witness :
    verify_token envW storeAlice tdC2 = .ok ⟨true, "alice", "agency1"⟩ :=
  (C2_verify_check_order envW storeAlice tdC2
      ⟨some "alice", some "agency1", some 2000⟩ rfl).2.2.2.2.2.2
    aliceRec (by decide) (by decide) (by decide) (by decide) rfl rfl

/-- C3: for every Claims value with a subject, an agency_id and a future
expiry, decoding the token produced by encoding it with the same secret
and algorithm yields the original Claims. -/
theorem C3_encode_decode_roundtrip (subject agency : String)
    (e secret now : Nat) (hs : subject ≠ "") (ha : agency ≠ "")
    (hfut : now < e) :
    decode (encode ⟨some subject, some agency, some e⟩ secret ALGORITHM)
        secret [ALGORITHM] = .ok ⟨some subject, some agency, some e⟩ := by
  simp [decode, encode]

/-- Witness for C3 at a concrete Claims value. -/
theorem C3_encode_decode_roundtrip_witness :
    decode (encode ⟨some "alice", some "agency1", some 2000⟩ 7 ALGORITHM)
        7 [ALGORITHM] = .ok ⟨some "alice", some "agency1", some 2000⟩ :=
  C3_encode_decode_roundtrip "alice" "agency1" 2000 7 1000
    (by decide) (by decide) (by decide)

/-- C4: the code is broken on this path — for a refresh request whose
token fails to decode, the codec's JWTError is displaced by the broken
`except jwt.PyJWTError` clause (app.py:265) and escapes the handler as an
unhandled AttributeError, surfacing as a raw 500; the claim's 400
"Invalid refresh token" is what the handler's own except body
(app.py:266) and the verify handler's correct `except JWTError`
(app.py:233) show was intended, but never happens. -/
theorem C4_refresh_decode_failure_escapes :
    refresh_token envW storeEmpty ⟨"alice", .garbage "xx"⟩
      = (.error (.unhandledAttributeError (.jwtError .malformed)), []) :=
  rfl

/-- Helper: Verify only ever returns `valid = true` (app.py:231 is the
only `return`), so Logout's not-valid branch is unreachable. -/
theorem verify_ok_valid (env : Env) (store : Store) (td : TokenVerify)
    (r : VerifyResponse) (h : verify_token env store td = .ok r) :
    r.valid = true := by
  unfold verify_token at h
  split at h
  · simp at h
  · split at h
    · simp at h
    · split at h
      · simp at h
      · split at h
        · simp at h
        · split at h
          · simp at h
          · split at h
            · simp at h
            · split at h
              · simp at h
              · injection h with h
                rw [← h]

/-- Logout request presenting a garbage token. -/
def tdC5 : TokenVerify := ⟨"alice", .garbage "xxx"⟩

/-- C5 counterexample: on a logout request whose token fails the Verify
check because it is malformed, Logout answers 400 "Invalid token format"
(the Verify rejection propagated unchanged), not 401 "Invalid token" as
the claim states. -/
theorem C5_counterexample :
    (logout envW storeAlice tdC5).1 = .error ⟨400, "Invalid token format"⟩ ∧
    (⟨400, "Invalid token format"⟩ : HTTPException) ≠ ⟨401, "Invalid token"⟩ :=
  ⟨rfl, by decide⟩

/-- C5 (amended): Logout first runs the full Verify check; when that check
fails its rejection propagates unchanged (original status and reason,
e.g. 400 for a malformed token, 404 for an unknown user) rather than being
mapped to 401 "Invalid token"; only when Verify passes is the delete call
made, rejecting 500 if the store reports failure and returning the success
message otherwise. -/
theorem C5_logout_propagates_verify (env : Env) (store : Store)
    (td : TokenVerify) :
    (∀ e, verify_token env store td = .error e →
      logout env store td = (.error e, [])) ∧
    (∀ r, verify_token env store td = .ok r →
      (store.deleteOk td.username td.token = false →
        logout env store td
          = (.error ⟨500, "Failed to delete token from database"⟩,
             [.delete td.username td.token])) ∧
      (store.deleteOk td.username td.token = true →
        logout env store td
          = (.ok ⟨"Successfully logged out"⟩,
             [.delete td.username td.token]))) := by
  constructor
  · intro e he
    simp [logout, he]
  · intro r hr
    have hv : r.valid = true := verify_ok_valid env store td r hr
    constructor
    · intro hd
      simp [logout, hr, hv, hd]
    · intro hd
      simp [logout, hr, hv, hd]

/-- Witness for C5 (amended): a passing Verify leads to the delete call
and the success message. -/
theorem C5_logout_propagates_verify_witness :
    logout envW storeAlice tdC2
      = (.ok ⟨"Successfully logged out"⟩, [.delete "alice" aliceTok]) :=
  ((C5_logout_propagates_verify envW storeAlice tdC2).2
    ⟨true, "alice", "agency1"⟩ rfl).2 rfl

/-- Environment in which `jwt.encode` raises inside `create_access_token`. -/
def envEncFail : Env :=
  { secret := 7, now := 1000, encodeFails := true,
    pwVerify := fun p h => p == h }

/-- C6 counterexample: with valid credentials but a failing token
encoder, Login rejects with status 500 while Token-Create rejects with
status 400 — the two contracts disagree on the status code for a
token-creation failure. -/
theorem C6_counterexample :
    (login envEncFail storeAlice ⟨"alice", "pw"⟩).1
      = .error ⟨500, "Failed to create access token"⟩ ∧
    (login_for_access_token envEncFail storeAlice ⟨"alice", "pw"⟩).1
      = .error ⟨400, "Token creation error"⟩ ∧
    (500 : Nat) ≠ 400 :=
  ⟨rfl, rfl, by decide⟩

/-- C6 (amended): on every input, Login and Token-Create agree on
success versus failure and on the success body, and both reject bad
credentials (unknown user or wrong password) with status 401, though with
different detail strings; but whenever one fails for a token-creation or
store-write reason, Login returns status 500 where Token-Create returns
status 400. -/
theorem C6_login_token_create_contract (env : Env) (store : Store)
    (u pw : String) :
    (∃ b, (login env store ⟨u, pw⟩).1 = .ok b ∧
      (login_for_access_token env store ⟨u, pw⟩).1 = .ok b) ∨
    (∃ d1 d2, (login env store ⟨u, pw⟩).1 = .error ⟨401, d1⟩ ∧
      (login_for_access_token env store ⟨u, pw⟩).1 = .error ⟨401, d2⟩) ∨
    (∃ d1 d2, (login env store ⟨u, pw⟩).1 = .error ⟨500, d1⟩ ∧
      (login_for_access_token env store ⟨u, pw⟩).1 = .error ⟨400, d2⟩) := by
  rcases hget : store.getUser u with _ | user
  · right; left
    exact ⟨"User not found", "Incorrect username or password",
      by simp [login, get_user, hget],
      by simp [login_for_access_token, get_user, hget]⟩
  · rcases hpw : env.pwVerify pw user.password with _ | _
    · right; left
      exact ⟨"Incorrect password", "Incorrect username or password",
        by simp [login, get_user, verify_password, hget, hpw],
        by simp [login_for_access_token, get_user, verify_password, hget, hpw]⟩
    · rcases henc : create_access_token env
          ⟨some user.login, some user.agency_id, none⟩
          (some (days ACCESS_TOKEN_EXPIRE_DAYS)) with _ | tok
      · right; right
        exact ⟨"Failed to create access token", "Token creation error",
          by simp [login, get_user, verify_password, hget, hpw, henc],
          by simp [login_for_access_token, get_user, verify_password,
            hget, hpw, henc]⟩
      · rcases hupd : store.updateOk u tok with _ | _
        · right; right
          exact ⟨"Failed to update token in database", "Token update in DB error",
            by simp [login, get_user, verify_password, update_token_in_DB,
              hget, hpw, henc, hupd],
            by simp [login_for_access_token, get_user, verify_password,
              update_token_in_DB, hget, hpw, henc, hupd]⟩
        · left
          exact ⟨⟨tok, "bearer"⟩,
            by simp [login, get_user, verify_password, update_token_in_DB,
              hget, hpw, henc, hupd],
            by simp [login_for_access_token, get_user, verify_password,
              update_token_in_DB, hget, hpw, henc, hupd]⟩

/-- The token Refresh mints (app.py:250-252): the claims dict passed to
`create_access_token` is `{"sub": username}` alone, so the encoded claims
carry only the subject plus the 7-day expiry — no agency claim. -/
def refreshMinted (env : Env) (s : String) : Token :=
  encode ⟨some s, none, some (env.now + days ACCESS_TOKEN_EXPIRE_DAYS)⟩
    env.secret ALGORITHM

/-- A store with no records that refuses every token write. -/
def storeNoWrite : Store :=
  { getUser := fun _ => none, updateOk := fun _ _ => false,
    deleteOk := fun _ _ => true }

/-- Refresh request presenting alice's token. -/
def trC7 : TokenRefresh := ⟨"alice", aliceTok⟩

/-- C7 counterexample: when persisting the freshly minted token fails,
the handler's HTTPException(400, "Token update in DB error") raised at
app.py:262 is displaced by the broken `except jwt.PyJWTError` clause and
the request surfaces as an unhandled AttributeError (a raw 500 carrying
no reason) — not a typed InternalError rejection as the claim states. -/
theorem C7_counterexample :
    refresh_token envW storeNoWrite trC7
      = (.error (.unhandledAttributeError
          (.http ⟨400, "Token update in DB error"⟩)),
         [.update "alice" (refreshMinted envW "alice")]) ∧
    storeNoWrite.updateOk "alice" (refreshMinted envW "alice") = false :=
  ⟨rfl, rfl⟩

/-- C7 (amended): for every refresh request with a decodable refresh
token carrying a subject, the freshly minted token's claims contain only
the subject and the expiry — the agency claim present in Login tokens is
dropped — and if persisting the new token fails, the handler's 400
"Token update in DB error" is destroyed by the broken
`except jwt.PyJWTError` clause, so the request escapes as an unhandled
AttributeError (a raw 500), not a typed InternalError rejection; when the
store accepts the write, Refresh succeeds with the minted bearer token. -/
theorem C7_refresh_drops_agency (env : Env) (store : Store)
    (td : TokenRefresh) (p : Payload) (s : String)
    (hdec : decode td.refresh_token env.secret [ALGORITHM] = .ok p)
    (hsub : p.sub = some s) (henc : env.encodeFails = false) :
    (store.updateOk td.username (refreshMinted env s) = false →
      refresh_token env store td
        = (.error (.unhandledAttributeError
            (.http ⟨400, "Token update in DB error"⟩)),
           [.update td.username (refreshMinted env s)])) ∧
    (store.updateOk td.username (refreshMinted env s) = true →
      refresh_token env store td
        = (.ok ⟨refreshMinted env s, "bearer"⟩,
           [.update td.username (refreshMinted env s)])) := by
  unfold refreshMinted
  constructor <;> intro hupd <;>
    simp [refresh_token, create_access_token, update_token_in_DB,
      hdec, hsub, henc, hupd]

/-- Witness for C7 (amended) at a concrete refusing store. -/
theorem C7_refresh_drops_agency_witness :
    refresh_token envW storeNoWrite trC7
      = (.error (.unhandledAttributeError
          (.http ⟨400, "Token update in DB error"⟩)),
         [.update "alice" (refreshMinted envW "alice")]) :=
  (C7_refresh_drops_agency envW storeNoWrite trC7
    ⟨some "alice", some "agency1", some 2000⟩ "alice" rfl rfl rfl).1 rfl

/-- Verify request whose well-signed token lacks the agency claim. -/
def tdNoNgy : TokenVerify :=
  ⟨"alice", encode ⟨some "alice", none, some 2000⟩ 7 ALGORITHM⟩

/-- Verify request whose well-signed token lacks the expiry claim. -/
def tdNoExp : TokenVerify :=
  ⟨"alice", encode ⟨some "alice", some "agency1", none⟩ 7 ALGORITHM⟩

/-- C8: two distinct Verify rejection causes — missing expiry claim and
missing agency claim — carry the same reason string
"Invalid token: missing expiration" (app.py:214 reuses the detail of
app.py:201, though its log line says the cause is the agency id), so the
rejection reasons of the four operations are not pairwise distinct. -/
theorem C8_duplicate_reason_string :
    verify_token envW storeAlice tdNoNgy
      = .error ⟨400, "Invalid token: missing expiration"⟩ ∧
    verify_token envW storeAlice tdNoExp
      = .error ⟨400, "Invalid token: missing expiration"⟩ :=
  ⟨rfl, rfl⟩

/-- C9: Verify never compares the request's username against the token's
subject: when they differ, Verify still succeeds — with user_id and
agency_id taken from the token's claims, not from the store record —
provided the token is well-signed, unexpired, carries both claims, and is
identical to the token stored under the request's username. -/
theorem C9_username_not_compared_to_subject (env : Env) (store : Store)
    (td : TokenVerify) (s a : String) (e : Nat) (user : UserRecord)
    (hne : td.username ≠ s)
    (htok : td.token = encode ⟨some s, some a, some e⟩ env.secret ALGORITHM)
    (hs : s ≠ "") (ha : a ≠ "") (hfut : env.now < e)
    (huser : store.getUser td.username = some user)
    (hstored : user.jwt_token = some td.token) :
    verify_token env store td = .ok ⟨true, s, a⟩ := by
  have he : e ≠ 0 := by omega
  have hdec : decode td.token env.secret [ALGORITHM]
      = .ok ⟨some s, some a, some e⟩ := by
    rw [htok]; simp [decode, encode]
  simp [verify_token, get_user, hdec, truthyStr, truthyNat, hs, ha, he,
    huser, hstored, Nat.not_le.mpr hfut]

/-- Bob's store record: his active token is the alice-subject token. -/
def bobRec : UserRecord :=
  { password := "pw2", login := "bob", agency_id := "agency9",
    jwt_token := some aliceTok }

/-- A store holding exactly bob's record. -/
def storeBob : Store :=
  { getUser := fun u => if u == "bob" then some bobRec else none,
    updateOk := fun _ _ => true, deleteOk := fun _ _ => true }

/-- Bob presenting the alice-subject token. -/
def tdC9 : TokenVerify := ⟨"bob", aliceTok⟩

/-- Witness for C9: username bob, token subject alice, record fields
differing from the token's claims — Verify still answers with the
token's claims. -/
theorem C9_username_not_compared_to_subject_witness :
    verify_token envW storeBob tdC9 = .ok ⟨true, "alice", "agency1"⟩ :=
  C9_username_not_compared_to_subject envW storeBob tdC9
    "alice" "agency1" 2000 bobRec (by decide) rfl (by decide) (by decide)
    (by decide) rfl rfl

/-- C10: Refresh never consults the store's currently active token: for
every store state — including one where the presented token has been
superseded or deleted — a well-signed, unexpired refresh token carrying a
subject makes Refresh succeed, and the single store write it attempts puts
the new token (whose subject comes from the presented token's claims)
under the request's username, which is never checked against that
subject. -/
theorem C10_refresh_ignores_store (env : Env) (store : Store)
    (td : TokenRefresh) (p : Payload) (s : String) (e : Nat)
    (htok : td.refresh_token = encode p env.secret ALGORITHM)
    (hsub : p.sub = some s) (hexp : p.exp = some e) (hfut : env.now < e)
    (henc : env.encodeFails = false)
    (hupd : store.updateOk td.username (refreshMinted env s) = true) :
    refresh_token env store td
      = (.ok ⟨refreshMinted env s, "bearer"⟩,
         [.update td.username (refreshMinted env s)]) := by
  have hdec : decode td.refresh_token env.secret [ALGORITHM] = .ok p := by
    rw [htok]; simp [decode, encode]
  unfold refreshMinted at hupd ⊢
  simp [refresh_token, create_access_token, update_token_in_DB,
    hdec, hsub, henc, hupd]

/-- Witness for C10: the store has no record at all for bob (token
deleted), the request's username differs from the token's subject, and
Refresh still succeeds, writing the new token under bob. -/
theorem C10_refresh_ignores_store_witness :
    refresh_token envW storeEmpty ⟨"bob", aliceTok⟩
      = (.ok ⟨refreshMinted envW "alice", "bearer"⟩,
         [.update "bob" (refreshMinted envW "alice")]) :=
  C10_refresh_ignores_store envW storeEmpty ⟨"bob", aliceTok⟩
    ⟨some "alice", some "agency1", some 2000⟩ "alice" 2000
    rfl rfl rfl (by decide) rfl rfl

end AuthAPI
